import Mathlib

/-!
Verification of the urban traffic multi-agent simulation
(`src/agents_graphical.py`, `src/settings.py`, `main.py`).

Shallow embedding conventions:

* Coordinates are rationals (`Rat`).  The Python floats appearing in the
  source are all produced from integer literals and exact halves or tenths,
  so rationals represent them exactly.
* Euclidean distances are represented by their squares: the source computes
  `math.sqrt((x1-x2)**2 + (y1-y2)**2)` and only ever compares distances with
  other distances or with non-negative constants, and squaring is strictly
  monotone on non-negative values, so every comparison is mirrored on the
  squares (constants are squared in the embedding).  A result of `none`
  encodes the Python value `float(` followed by `inf)` that the helper
  returns for malformed input.
* The shared dictionary (Shared World State) is a list of key/value pairs;
  writing a key replaces any previous binding.  Values are modelled by
  `PyVal`: a well-formed position is `PyVal.pair x y`; strings and booleans
  are the non-position values the program stores; `PyVal.junk` stands for a
  malformed truthy value (for example an object that is not a tuple, or a
  tuple with non-numeric elements) whose numeric subscripting raises.
* Plans (the maspy handlers) become pure functions from the agent state and
  a snapshot of the shared state to the new agent state, the performed wait
  duration (`Option Rat`, in seconds) and the lists of added goals and sent
  messages.  `self.wait` only suspends the calling agent, so it is recorded
  as data.  Code that can raise a Python exception is embedded in
  `Except String`.
* Randomness (`random.choice`) is a function parameter `choice`; theorems
  that depend on the drawn element state the needed property of `choice`
  as a hypothesis.
-/

/-- A value stored in the shared dictionary.  `pair` is a well-formed
2-element numeric tuple; `str` and `boolean` are the other values the
program itself stores (light colors, the liveness flag); `junk` stands for
any malformed truthy value on which numeric subscripting raises. -/
inductive PyVal where
  | pair (x y : ℚ)
  | str (s : String)
  | boolean (b : Bool)
  | junk
  deriving DecidableEq

/-- Python truthiness of a stored value: a 2-element tuple is always truthy,
a string is truthy iff non-empty, a bool is itself; the malformed `junk`
value is taken truthy (falsy malformed values behave exactly like absent
keys in every guarded read, so they are not distinguished). -/
def PyVal.truthy : PyVal → Bool
  | .pair _ _ => true
  | .str s => s ≠ ""
  | .boolean b => b
  | .junk => false

/-- Numeric subscripting `v[i]` followed by its arithmetic use: defined for
the two components of a well-formed pair, raising `TypeError` otherwise
(on `None`, strings, booleans or other malformed values the subscript or
the ensuing subtraction raises in Python). -/
def pyIndexNum (v : PyVal) (i : Nat) : Except String ℚ :=
  match v, i with
  | .pair x _, 0 => .ok x
  | .pair _ y, 1 => .ok y
  | _, _ => .error "TypeError"

/-- `str.startswith` on the underlying character lists. -/
def pyStartsWith (s p : String) : Bool :=
  p.data.isPrefixOf s.data

/-- `str.endswith` on the underlying character lists. -/
def pyEndsWith (s p : String) : Bool :=
  p.data.isSuffixOf s.data

/-- `str.replace(pat, rep)` (all occurrences, left to right). -/
def replaceAll (pat rep : List Char) : List Char → List Char
  | [] => []
  | c :: rest =>
    if pat ≠ [] ∧ pat.isPrefixOf (c :: rest) then
      rep ++ replaceAll pat rep (rest.drop (pat.length - 1))
    else
      c :: replaceAll pat rep rest
termination_by l => l.length
decreasing_by
  · simp only [List.length_drop, List.length_cons]
    omega
  · simp only [List.length_cons]
    omega

/-- `str.replace` lifted to strings. -/
def pyReplace (s pat rep : String) : String :=
  ⟨replaceAll pat.data rep.data s.data⟩

/-- The shared dictionary (Shared World State): insertion-ordered key/value
pairs, later `wset` writes replacing earlier bindings of the same key. -/
abbrev WState := List (String × PyVal)

/-- Dictionary read (`dict.get`): the binding of the key, if any. -/
def wget : WState → String → Option PyVal
  | [], _ => none
  | e :: rest, k => if e.1 = k then some e.2 else wget rest k

/-- Dictionary write (`dict[k] = v`): update an existing binding in place
(keeping the insertion order, as Python dicts do) or append a new one. -/
def wset : WState → String → PyVal → WState
  | [], k, v => [(k, v)]
  | e :: rest, k, v => if e.1 = k then (k, v) :: rest else e :: wset rest k v

/-- Comparison of two (squared) distances, `none` encoding infinity:
infinity is below nothing, every finite value is below infinity. -/
def optLt : Option ℚ → Option ℚ → Bool
  | none, _ => false
  | some _, none => true
  | some a, some b => decide (a < b)

/-! ## Constants from `src/settings.py` (only those the claims touch) -/

def LARGURA_TELA : ℚ := 720
def ALTURA_TELA : ℚ := 720
def LARGURA_CARRO : ℚ := 40
def ALTURA_CARRO : ℚ := 80
def DISTANCIA_SEGURA_SEMAFORO : ℚ := ALTURA_CARRO * (1/2)
def DISTANCIA_VERIFICACAO_TROCA_FAIXA : ℚ := ALTURA_CARRO * (5/2)
def DISTANCIA_SEGURA_CARRO_PEDESTRE : ℚ := 150

/-- A crosswalk zone rectangle `(Xmin, Xmax, Ymin, Ymax)`. -/
structure Zona where
  xmin : ℚ
  xmax : ℚ
  ymin : ℚ
  ymax : ℚ
  deriving DecidableEq

def ZONA_PASSADEIRA_1 : Zona := ⟨195 - 15, 195 + 15, 243, 449⟩
def ZONA_PASSADEIRA_2 : Zona := ⟨520 - 15, 520 + 15, 235, 449⟩
def ZONA_PASSADEIRA_3 : Zona := ⟨195, 520, 449 - 15, 449 + 15⟩
def ZONA_PASSADEIRA_4 : Zona := ⟨195, 520, 235 - 15, 243 + 15⟩

/-- `MAPA_AVALIACAO_PASSADEIRA` of `settings.py`, as a lookup function
(`dict.get` returning `none` on unknown keys). -/
def MAPA_AVALIACAO_PASSADEIRA : String → Option Zona
  | "PX1_EVAL_H" => some ZONA_PASSADEIRA_1
  | "PX1_EVAL_V" => some ZONA_PASSADEIRA_1
  | "H_MID_L" => some ZONA_PASSADEIRA_2
  | "H_MID_R" => some ZONA_PASSADEIRA_2
  | "V_MID_L" => some ZONA_PASSADEIRA_3
  | "V_MID_C" => some ZONA_PASSADEIRA_3
  | "V_MID_R" => some ZONA_PASSADEIRA_3
  | "V_EVAL_C" => some ZONA_PASSADEIRA_4
  | "V_EVAL_R" => some ZONA_PASSADEIRA_4
  | _ => none

def PONTOS_ESPERA_PEDESTRE : List String := ["P1", "P4", "P2", "P3"]

/-- `PONTOS_DE_PASSAGEM_PEDESTRES` of `settings.py`. -/
def PONTOS_DE_PASSAGEM_PEDESTRES : String → Option (ℚ × ℚ)
  | "P1" => some (195, 449)
  | "P2" => some (520, 449)
  | "P3" => some (520, 235)
  | "P4" => some (195, 243)
  | "P5" => some (5, 244)
  | "P6" => some (195, 10)
  | "P7" => some (711, 248)
  | "P8" => some (510, 10)
  | "P9" => some (195, 690)
  | "P10" => some (5, 449)
  | "P11" => some (715, 449)
  | "P12" => some (520, 689)
  | _ => none

/-- `CAMINHOS_PEDESTRES` of `settings.py`. -/
def CAMINHOS_PEDESTRES : String → Option (List String)
  | "P1" => some ["P4", "P2", "P9", "P10"]
  | "P2" => some ["P3", "P1", "P11", "P12"]
  | "P3" => some ["P2", "P4", "P7", "P8"]
  | "P4" => some ["P1", "P3", "P5", "P6"]
  | "P5" => some ["P4"]
  | "P6" => some ["P4"]
  | "P7" => some ["P3"]
  | "P8" => some ["P3"]
  | "P9" => some ["P1"]
  | "P10" => some ["P1"]
  | "P11" => some ["P2"]
  | "P12" => some ["P2"]
  | _ => none

/-- `PONTOS_DE_PASSAGEM_CARROS` of `settings.py`. -/
def PONTOS_DE_PASSAGEM_CARROS : String → Option (ℚ × ℚ)
  | "V_START_L" => some (300, 720)
  | "V_START_C" => some (360, 720)
  | "V_START_R" => some (420, 720)
  | "V_CHANGE_L" => some (300, 600)
  | "V_CHANGE_C" => some (360, 600)
  | "V_CHANGE_R" => some (420, 600)
  | "V_MID_L" => some (300, 490)
  | "V_MID_C" => some (360, 490)
  | "V_MID_R" => some (420, 490)
  | "V_INT_L" => some (300, 387)
  | "V_INT_C" => some (360, 387)
  | "V_INT_R" => some (420, 387)
  | "V_EVAL_C" => some (360, 300)
  | "V_EVAL_R" => some (420, 300)
  | "V_END_C" => some (360, 0)
  | "V_END_R" => some (420, 0)
  | "H_START_R" => some (720, 348)
  | "H_START_L" => some (719, 387)
  | "H_CHANGE_R" => some (650, 348)
  | "H_CHANGE_L" => some (650, 387)
  | "H_MID_R" => some (550, 348)
  | "H_MID_L" => some (550, 387)
  | "H_INT_R" => some (420, 348)
  | "H_INT_L" => some (420, 387)
  | "PX1_EVAL_H" => some (240, 387)
  | "PX1_EVAL_V" => some (240, 387)
  | "H_END_L" => some (0, 387)
  | _ => none

/-- `calcular_distancia` of `agents_graphical.py`, in squared form.
The source returns infinity (here `none`) unless both arguments are truthy
2-element tuples or lists of numbers, catching the arithmetic errors of
non-numeric elements; otherwise it returns the Euclidean distance, whose
square is returned here. -/
def calcular_distancia (pos1 pos2 : PyVal) : Option ℚ :=
  match pos1, pos2 with
  | .pair x1 y1, .pair x2 y2 => some ((x1 - x2) ^ 2 + (y1 - y2) ^ 2)
  | _, _ => none

/-! ## Signal controller (`ControladorDeCruzamento`)

The environment holds two maspy percepts (`semaforo_v`, `semaforo_h`) and an
optional reference to the shared dictionary (`none` models a missing or
falsy `estado_compartilhado`, which disables the shared-state writes just as
the guards in `setup` and `trocar_sinal` do). -/

structure Cruzamento where
  percept_v : Option String
  percept_h : Option String
  shared : Option WState
  deriving DecidableEq

/-- The phase table of `trocar_sinal`: `(vertical, horizontal)` color pairs. -/
def estados : List (String × String) :=
  [("verde", "vermelho"), ("amarelo", "vermelho"),
   ("vermelho", "verde"), ("vermelho", "amarelo")]

/-- The hold times (seconds) of `trocar_sinal`. -/
def tempos : List ℚ := [5, 2, 5, 2]

theorem estados_length : estados.length = 4 := rfl

theorem tempos_length : tempos.length = 4 := rfl

/-- `estados[i]` for the always-in-range index of the loop. -/
def estadosGet (i : Fin 4) : String × String :=
  estados.get ⟨i.val, by rw [estados_length]; exact i.isLt⟩

/-- `tempos[i]` for the always-in-range index of the loop. -/
def temposGet (i : Fin 4) : ℚ :=
  tempos.get ⟨i.val, by rw [tempos_length]; exact i.isLt⟩

/-- `ControladorDeCruzamento.setup`: create the two percepts with initial
colors and, when the shared dictionary is configured, write the same colors
into it. -/
def controlador_setup (estado : Option WState) : Cruzamento :=
  { percept_v := some "verde"
    percept_h := some "vermelho"
    shared := estado.map (fun st =>
      wset (wset st "estado_semaforo_v" (.str "verde"))
        "estado_semaforo_h" (.str "vermelho")) }

/-- One iteration of the `while True` loop of `trocar_sinal`: read the phase
for the current index, update both percepts when both exist, write both
colors into the shared dictionary when it is configured, then sleep the hold
time and advance the index modulo the phase count.  Returns the new
environment, the slept duration and the next index. -/
def trocar_sinal_step (c : Cruzamento) (i : Fin 4) : Cruzamento × ℚ × Fin 4 :=
  let (estado_v, estado_h) := estadosGet i
  let tempo_espera := temposGet i
  let c' :=
    match c.percept_v, c.percept_h with
    | some _, some _ =>
      { c with
        percept_v := some estado_v
        percept_h := some estado_h
        shared := c.shared.map (fun st =>
          wset (wset st "estado_semaforo_v" (.str estado_v))
            "estado_semaforo_h" (.str estado_h)) }
    | _, _ => c
  (c', tempo_espera, ⟨(i.val + 1) % 4, Nat.mod_lt _ (by omega)⟩)

/-- The phase reached by the n-th loop iteration: color pair and hold time. -/
def faseDe (n : Nat) : (String × String) × ℚ :=
  (estadosGet ⟨n % 4, Nat.mod_lt _ (by omega)⟩,
   temposGet ⟨n % 4, Nat.mod_lt _ (by omega)⟩)

/-! ## Vehicle agent (`AgenteCarro`) -/

/-- The negotiation-relevant belief base of a vehicle: the argument lists of
the `crenca_pedestre_pedindo_travessia` beliefs (pedestrian ids) and of the
`crenca_cedendo_passagem_a` beliefs (pedestrian id, evaluation waypoint). -/
structure CarroBeliefs where
  pedindo : List String
  cedendo : List (String × String)
  deriving DecidableEq

/-- Goals a vehicle plan can add. -/
inductive CarGoal where
  | dirigir
  | avaliar (args : String × String)
  | monitorar (args : String × String)
  deriving DecidableEq

/-- A message sent over the agent channel: destination agent, belief name,
content tuple (status, sender vehicle name). -/
structure Msg where
  dest : String
  nome : String
  conteudo : String × String
  deriving DecidableEq

/-- `AgenteCarro.plano_receber_pedido_travessia`: a crossing-request goal
arrives carrying the pedestrian id; if the car already holds a pending
request belief or a yielding belief it returns unchanged, otherwise it
records the request. -/
def plano_receber_pedido_travessia (b : CarroBeliefs) (id_pedestre : String) :
    CarroBeliefs :=
  if b.pedindo ≠ [] ∨ b.cedendo ≠ [] then b
  else { b with pedindo := b.pedindo ++ [id_pedestre] }

/-- `AgenteCarro.plano_avaliar_pedido` for vehicle `myName`: the decision is
the literal `True`, so the grant branch runs — add the yielding belief
tagged with the pedestrian id and evaluation waypoint, send the pedestrian
the `concedida` response carrying the vehicle name, add the monitoring goal
— and then the pending-request belief with this pedestrian id is removed if
present.  The denial branch of the source (response `negada` plus a driving
goal) is kept verbatim under the same conditional.  Returns the new belief
base, sent messages and added goals. -/
def plano_avaliar_pedido (myName : String) (b : CarroBeliefs)
    (args : String × String) : CarroBeliefs × List Msg × List CarGoal :=
  let (id_pedestre, ponto_avaliacao) := args
  let decisao_ceder := true
  let (b1, msgs, goals) :=
    if decisao_ceder then
      ({ b with cedendo := b.cedendo ++ [(id_pedestre, ponto_avaliacao)] },
       [⟨id_pedestre, "resposta_carro_travessia", ("concedida", myName)⟩],
       [CarGoal.monitorar (id_pedestre, ponto_avaliacao)])
    else
      (b,
       [⟨id_pedestre, "resposta_carro_travessia", ("negada", myName)⟩],
       [CarGoal.dirigir])
  ({ b1 with pedindo := b1.pedindo.erase id_pedestre }, msgs, goals)

/-- Closed-interval membership of a position in a crosswalk zone. -/
def insideZona (z : Zona) (x y : ℚ) : Bool :=
  decide (z.xmin ≤ x) && decide (x ≤ z.xmax) &&
  decide (z.ymin ≤ y) && decide (y ≤ z.ymax)

/-- `AgenteCarro.plano_monitorar_pedestre`: look up the monitored
pedestrian position in the shared state; if it is present and truthy and
the evaluation waypoint maps to a zone and the position is inside the
zone (closed intervals), keep the yielding belief, wait 0.5 s and re-add the
monitoring goal; otherwise (position absent or falsy, unknown zone, or
outside the zone) remove the yielding belief if present and re-add the
driving goal.  A present malformed value raises when subscripted inside the
interval check. -/
def plano_monitorar_pedestre (st : WState) (b : CarroBeliefs)
    (id_pedestre ponto_avaliacao : String) :
    Except String (CarroBeliefs × Option ℚ × List CarGoal) :=
  let pos_pedestre := wget st (id_pedestre ++ "_pos")
  let bRm := { b with cedendo := b.cedendo.erase (id_pedestre, ponto_avaliacao) }
  match pos_pedestre with
  | some v =>
    if v.truthy then
      match MAPA_AVALIACAO_PASSADEIRA ponto_avaliacao with
      | some z =>
        match v with
        | .pair px py =>
          if insideZona z px py then
            .ok (b, some (1/2), [CarGoal.monitorar (id_pedestre, ponto_avaliacao)])
          else
            .ok (bRm, none, [CarGoal.dirigir])
        | _ => .error "TypeError"
      | none => .ok (bRm, none, [CarGoal.dirigir])
    else
      .ok (bRm, none, [CarGoal.dirigir])
  | none => .ok (bRm, none, [CarGoal.dirigir])

/-- The same-lane test of `AgenteCarro.encontrar_carro_a_frente` on one raw
shared-state value, with the evaluation order of the source: for a `V_` stop
waypoint the value is subscripted at 0 (raising on malformed values), the
lateral offset compared, and only then subscripted at 1; symmetrically for
`H_`; any other stop waypoint never subscripts the value. -/
def mesmaFaixaDe (ponto_parada_nome : String) (posicao pos_parada : ℚ × ℚ)
    (v : PyVal) : Except String Bool :=
  if pyStartsWith ponto_parada_nome "V_" then do
    let ox ← pyIndexNum v 0
    if |ox - posicao.1| < LARGURA_CARRO * (1/2) then do
      let oy ← pyIndexNum v 1
      pure (decide (oy < posicao.2) && decide (oy ≥ pos_parada.2))
    else
      pure false
  else if pyStartsWith ponto_parada_nome "H_" then do
    let oy ← pyIndexNum v 1
    if |oy - posicao.2| < ALTURA_CARRO * (1/4) then do
      let ox ← pyIndexNum v 0
      pure (decide (ox < posicao.1) && decide (ox ≥ pos_parada.1))
    else
      pure false
  else
    pure false

/-- The iteration of `AgenteCarro.encontrar_carro_a_frente` over the shared
state snapshot, carrying the best queue-ahead position and its (squared)
distance to the stop waypoint (`none` = the initial infinity). -/
def carroAFrenteAux (myName : String) (posicao : ℚ × ℚ)
    (ponto_parada_nome : String) (pos_parada : ℚ × ℚ) (dist_atual : Option ℚ) :
    List (String × PyVal) → Option (ℚ × ℚ) → Option ℚ →
    Except String (Option (ℚ × ℚ))
  | [], best, _ => .ok best
  | e :: rest, best, minv =>
    if pyStartsWith e.1 "Carro" && pyEndsWith e.1 "_pos" &&
        decide (e.1 ≠ myName ++ "_pos") then
      match mesmaFaixaDe ponto_parada_nome posicao pos_parada e.2 with
      | .error msg => .error msg
      | .ok mesma =>
        if mesma then
          match calcular_distancia e.2 (.pair pos_parada.1 pos_parada.2), e.2 with
          | some d2, .pair ox oy =>
            if optLt (some d2) dist_atual && optLt (some d2) minv then
              carroAFrenteAux myName posicao ponto_parada_nome pos_parada
                dist_atual rest (some (ox, oy)) (some d2)
            else
              carroAFrenteAux myName posicao ponto_parada_nome pos_parada
                dist_atual rest best minv
          | _, _ =>
            carroAFrenteAux myName posicao ponto_parada_nome pos_parada
              dist_atual rest best minv
        else
          carroAFrenteAux myName posicao ponto_parada_nome pos_parada
            dist_atual rest best minv
    else
      carroAFrenteAux myName posicao ponto_parada_nome pos_parada
        dist_atual rest best minv

/-- `AgenteCarro.encontrar_carro_a_frente`: position of the closest car
queued between this car and the stop waypoint, or `none`; raises
(`Except.error`) exactly where the source raises on malformed entries. -/
def encontrar_carro_a_frente (st : WState) (myName : String)
    (posicao : ℚ × ℚ) (ponto_parada_nome : String) :
    Except String (Option (ℚ × ℚ)) :=
  match PONTOS_DE_PASSAGEM_CARROS ponto_parada_nome with
  | none => .ok none
  | some pos_parada =>
    let dist_atual :=
      calcular_distancia (.pair posicao.1 posicao.2)
        (.pair pos_parada.1 pos_parada.2)
    carroAFrenteAux myName posicao ponto_parada_nome pos_parada dist_atual
      st none none

/-- One shared-state entry processed by
`AgenteCarro.encontrar_obstaculo_imediato`: the accumulator carries the
closest obstacle position and its squared distance (`none` = infinity).
A malformed value has infinite distance, which exceeds the doubled safety
cutoff, so the `continue` branch is taken. -/
def obstaculoStep (myName : String) (posicao : ℚ × ℚ)
    (is_vertical is_horizontal : Bool)
    (dist_segura_frente dist_segura_lado dx dy : ℚ)
    (acc : Option (ℚ × ℚ) × Option ℚ) (e : String × PyVal) :
    Option (ℚ × ℚ) × Option ℚ :=
  if pyStartsWith e.1 "Carro" && pyEndsWith e.1 "_pos" &&
      decide (e.1 ≠ myName ++ "_pos") then
    match e.2, calcular_distancia (.pair posicao.1 posicao.2) e.2 with
    | .pair ox oy, some d2 =>
      if d2 > (dist_segura_frente * 2) ^ 2 then acc
      else
        let na_mesma_faixa :=
          if is_vertical then decide (|ox - posicao.1| < dist_segura_lado)
          else if is_horizontal then decide (|oy - posicao.2| < dist_segura_lado)
          else false
        let esta_a_frente :=
          if is_vertical then
            (if dy < 0 then decide (oy < posicao.2) else decide (oy > posicao.2))
          else if is_horizontal then
            (if dx < 0 then decide (ox < posicao.1) else decide (ox > posicao.1))
          else false
        if esta_a_frente && na_mesma_faixa && optLt (some d2) acc.2 then
          (some (ox, oy), some d2)
        else acc
    | _, _ => acc
  else acc

/-- `AgenteCarro.encontrar_obstaculo_imediato`: the position of another car
dangerously close in the direction of motion, or `none`. -/
def encontrar_obstaculo_imediato (st : WState) (myName : String)
    (posicao : ℚ × ℚ) (ponto_alvo_atual : Option String) : Option (ℚ × ℚ) :=
  match ponto_alvo_atual with
  | none => none
  | some alvo =>
    match PONTOS_DE_PASSAGEM_CARROS alvo with
    | none => none
    | some pos_alvo =>
      let dx := pos_alvo.1 - posicao.1
      let dy := pos_alvo.2 - posicao.2
      let is_vertical := decide (|dy| > |dx|)
      let is_horizontal := decide (|dx| > |dy|)
      let dist_segura_frente :=
        if is_horizontal then LARGURA_CARRO * (9/10) else ALTURA_CARRO * (9/10)
      let dist_segura_lado :=
        if is_horizontal then ALTURA_CARRO * (1/2) else LARGURA_CARRO * (1/2)
      let acc := st.foldl
        (obstaculoStep myName posicao is_vertical is_horizontal
          dist_segura_frente dist_segura_lado dx dy) (none, none)
      match acc with
      | (some p, some d2) =>
        if d2 < dist_segura_frente ^ 2 then some p else none
      | _ => none

/-- The result of `AgenteCarro.__init__` for the fields the claims touch:
current waypoint, position (the waypoint coordinate, falling back to the
screen center on an unknown waypoint name), the updated shared state (the
only write being the position under the `_pos` key) and the initial goal. -/
structure CarroInit where
  ponto_atual : String
  ponto_anterior : Option String
  posicao : ℚ × ℚ
  velocidade : ℚ
  shared : WState
  goals : List CarGoal
  deriving DecidableEq

/-- `AgenteCarro.__init__`.  `LARGURA_TELA // 2 = 360` exactly, so the
integer floor divisions of the fallback equal the rational halves. -/
def agenteCarro_init (name ponto_inicial : String) (velocidade : ℚ)
    (st : WState) : CarroInit :=
  let posicao := (PONTOS_DE_PASSAGEM_CARROS ponto_inicial).getD
    (LARGURA_TELA / 2, ALTURA_TELA / 2)
  { ponto_atual := ponto_inicial
    ponto_anterior := none
    posicao := posicao
    velocidade := velocidade
    shared := wset st (name ++ "_pos") (.pair posicao.1 posicao.2)
    goals := [CarGoal.dirigir] }

/-- The shared-state publication performed by `AgenteCarro`: every write in
the class (`__init__` line 116, the respawn at line 341, the movement loop
at line 464 and the arrival at line 468) stores the position under the
`{name}_pos` key; no other key is ever written by the vehicle agent. -/
def carro_publicar_posicao (name : String) (posicao : ℚ × ℚ)
    (st : WState) : WState :=
  wset st (name ++ "_pos") (.pair posicao.1 posicao.2)

/-- The initial shared dictionary built in `main.py` before the agents
start. -/
def mainEstadoInicial : WState :=
  [("estado_semaforo_v", .str "red"), ("estado_semaforo_h", .str "red"),
   ("simulacao_ativa", .boolean true)]

/-! ## Pedestrian agent (`AgentePessoa`) -/

/-- The negotiation beliefs a pedestrian holds:
`crenca_aguardando_resposta_carro` and `crenca_passagem_segura`. -/
inductive PBelief where
  | aguardando_resposta
  | pode_atravessar
  deriving DecidableEq

/-- Goals a pedestrian plan can add. -/
inductive PGoal where
  | decidir_movimento
  | executar_movimento (alvo : String)
  | aguardar_resposta
  | pedir_permissao (id_carro : String)
  | aguardar_antes_de_tentar_novamente
  deriving DecidableEq

/-- The pedestrian state the claims touch: belief base, the reference to the
car currently negotiated with, current waypoint and continuous position. -/
structure Pessoa where
  beliefs : List PBelief
  carro_negociando : Option String
  ponto_atual : String
  posicao : ℚ × ℚ
  deriving DecidableEq

/-- One shared-state entry processed by
`AgentePessoa.encontrar_carro_proximo`: the accumulator carries the best
`(car id, squared distance)` and the current bound, initially the (squared)
safety radius.  A malformed value has infinite distance and is never below
the finite bound. -/
def carroProximoStep (posicao : ℚ × ℚ) (acc : Option (String × ℚ) × ℚ)
    (e : String × PyVal) : Option (String × ℚ) × ℚ :=
  if pyStartsWith e.1 "Carro" && pyEndsWith e.1 "_pos" then
    match calcular_distancia (.pair posicao.1 posicao.2) e.2 with
    | some d2 =>
      if d2 < acc.2 then (some (pyReplace e.1 "_pos" "", d2), d2) else acc
    | none => acc
  else acc

/-- `AgentePessoa.encontrar_carro_proximo`: `(id, squared distance)` of the
closest car strictly within the safety radius, or `none`. -/
def encontrar_carro_proximo (st : WState) (posicao : ℚ × ℚ) :
    Option (String × ℚ) :=
  (st.foldl (carroProximoStep posicao)
    (none, DISTANCIA_SEGURA_CARRO_PEDESTRE ^ 2)).1

/-- The crossing-pair chain of `AgentePessoa.plano_decidir_movimento`
(source lines 592-600), embedded branch for branch, including the four
later duplicate branches that an earlier branch shadows. -/
def caminho_travessia_src (ponto_atual : String) : List String :=
  if ponto_atual = "P1" then ["P4"]
  else if ponto_atual = "P4" then ["P1"]
  else if ponto_atual = "P2" then ["P3"]
  else if ponto_atual = "P3" then ["P2"]
  else if ponto_atual = "P4" then ["P3"]
  else if ponto_atual = "P3" then ["P4"]
  else if ponto_atual = "P1" then ["P2"]
  else if ponto_atual = "P2" then ["P1"]
  else []

/-- The minimal non-redundant crossing-pair table, written from the words of
the specification (P1 and P4 paired, P2 and P3 paired, nothing else); the
refinement claim compares the source chain against it. -/
def tabela_pares_spec (ponto : String) : List String :=
  if ponto = "P1" then ["P4"]
  else if ponto = "P4" then ["P1"]
  else if ponto = "P2" then ["P3"]
  else if ponto = "P3" then ["P2"]
  else []

/-- The crossing-edge test used at source lines 628-631 (and again at
667-670): the move is one of P1 to P4, P4 to P1, P2 to P3, P3 to P2. -/
def e_travessia (ponto_atual ponto_alvo_nome : String) : Bool :=
  (decide (ponto_atual = "P1") && decide (ponto_alvo_nome = "P4")) ||
  (decide (ponto_atual = "P4") && decide (ponto_alvo_nome = "P1")) ||
  (decide (ponto_atual = "P2") && decide (ponto_alvo_nome = "P3")) ||
  (decide (ponto_atual = "P3") && decide (ponto_alvo_nome = "P2"))

/-- `AgentePessoa.plano_decidir_movimento`.  `choice` stands for
`random.choice` (only ever applied to the non-empty lists the source
guards), `randWait` for the `random.uniform(2.0, 5.0)` drawn in the
dead-end branch.  Returns the new pedestrian state, the performed wait and
the added goals, in the order the source adds them. -/
def plano_decidir_movimento (choice : List String → String) (randWait : ℚ)
    (st : WState) (p : Pessoa) : Pessoa × Option ℚ × List PGoal :=
  if PBelief.aguardando_resposta ∈ p.beliefs then
    (p, none, [PGoal.aguardar_resposta])
  else
    let tem_permissao := PBelief.pode_atravessar ∈ p.beliefs
    let em_ponto_espera := p.ponto_atual ∈ PONTOS_ESPERA_PEDESTRE
    if tem_permissao ∧ em_ponto_espera then
      let caminho_travessia := caminho_travessia_src p.ponto_atual
      if caminho_travessia ≠ [] then
        (p, none, [PGoal.executar_movimento (choice caminho_travessia)])
      else
        ({ p with beliefs := p.beliefs.erase .pode_atravessar }, none,
         [PGoal.decidir_movimento])
    else
      let proximos_pontos := (CAMINHOS_PEDESTRES p.ponto_atual).getD []
      if proximos_pontos = [] then
        (p, some randWait, [PGoal.decidir_movimento])
      else
        let ponto_alvo_nome := choice proximos_pontos
        match PONTOS_DE_PASSAGEM_PEDESTRES ponto_alvo_nome with
        | none => (p, none, [PGoal.decidir_movimento])
        | some _ =>
          let tentando_atravessar :=
            decide em_ponto_espera && e_travessia p.ponto_atual ponto_alvo_nome
          if tentando_atravessar = true ∧ em_ponto_espera then
            match encontrar_carro_proximo st p.posicao with
            | some (id_carro, _) =>
              ({ p with
                  beliefs := p.beliefs ++ [.aguardando_resposta]
                  carro_negociando := some id_carro }, none,
               [PGoal.pedir_permissao id_carro, PGoal.aguardar_resposta])
            | none =>
              ({ p with beliefs := p.beliefs ++ [.pode_atravessar] }, none,
               [PGoal.executar_movimento ponto_alvo_nome])
          else
            (p, none, [PGoal.executar_movimento ponto_alvo_nome])

/-- `AgentePessoa.plano_processar_resposta_carro`: a response message
`(status, responder id)` is processed; a responder different from the car
currently negotiated with causes an immediate return with nothing changed;
otherwise the awaiting belief is dropped, the reference cleared, and the
status dispatched (`concedida` grants permission and re-decides, anything
else enters the backoff goal). -/
def plano_processar_resposta_carro (p : Pessoa)
    (resposta_tupla : String × String) : Pessoa × Option ℚ × List PGoal :=
  let (resposta, id_carro_resp) := resposta_tupla
  if p.carro_negociando ≠ some id_carro_resp then
    (p, none, [])
  else
    let p1 := { p with
      beliefs := p.beliefs.erase .aguardando_resposta
      carro_negociando := none }
    if resposta = "concedida" then
      ({ p1 with beliefs := p1.beliefs ++ [.pode_atravessar] }, none,
       [PGoal.decidir_movimento])
    else
      (p1, none, [PGoal.aguardar_antes_de_tentar_novamente])

/-- `AgentePessoa.plano_aguardar_resposta`: when not awaiting, re-decide at
once; otherwise wait the fixed `tempo_espera_max = 3.0` seconds and — no
response having arrived during the wait in this sequential embedding — drop
the awaiting belief, clear the negotiated-car reference and re-decide. -/
def plano_aguardar_resposta (p : Pessoa) : Pessoa × Option ℚ × List PGoal :=
  if PBelief.aguardando_resposta ∉ p.beliefs then
    (p, none, [PGoal.decidir_movimento])
  else
    ({ p with
        beliefs := p.beliefs.erase .aguardando_resposta
        carro_negociando := none }, some 3, [PGoal.decidir_movimento])

/-- Well-formed position values. -/
def isPairVal : PyVal → Bool
  | .pair _ _ => true
  | _ => false

/-- Shared-state entries the fully guarded searches may react to: either the
value is a well-formed pair, or the key is not a car position key at all
(such entries are skipped by the key filter regardless of their value). -/
def entradaBemFormada (e : String × PyVal) : Bool :=
  isPairVal e.2 || !(pyStartsWith e.1 "Carro" && pyEndsWith e.1 "_pos")

/-! ## Helper lemmas -/

theorem wget_wset_self (st : WState) (k : String) (v : PyVal) :
    wget (wset st k v) k = some v := by
  induction st with
  | nil => simp [wget, wset]
  | cons e rest ih =>
    by_cases he : e.1 = k
    · simp [wget, wset, he]
    · simp [wget, wset, he, ih]

theorem wget_wset_ne (st : WState) (k key : String) (v : PyVal)
    (h : key ≠ k) :
    wget (wset st k v) key = wget st key := by
  have hkk : ¬ k = key := fun hk => h hk.symm
  induction st with
  | nil => simp [wget, wset, hkk]
  | cons e rest ih =>
    by_cases he : e.1 = k
    · have hne : ¬ e.1 = key := by rw [he]; exact hkk
      simp [wget, wset, he, hkk, hne]
    · simp only [wset, if_neg he, wget]
      rw [ih]

theorem foldl_ignored {α β : Type} (f : β → α → β) (keep : α → Bool)
    (h : ∀ a, keep a = false → ∀ acc, f acc a = acc) :
    ∀ (l : List α) (acc : β), l.foldl f acc = (l.filter keep).foldl f acc := by
  intro l
  induction l with
  | nil => intro acc; rfl
  | cons e rest ih =>
    intro acc
    by_cases hk : keep e = true
    · simp [List.filter_cons, hk, List.foldl_cons, ih]
    · have hk' : keep e = false := by simpa using hk
      simp [List.filter_cons, hk', List.foldl_cons, h e hk', ih]

/-! ## Claims -/

/-- C2: when a crossing-request goal arrives while the vehicle already holds
a pedestrian-requesting belief or a yielding belief, the handler returns the
belief base unchanged — the new request is silently dropped and no other
belief is touched. -/
theorem claim_C2 (b : CarroBeliefs) (id_pedestre : String)
    (h : b.pedindo ≠ [] ∨ b.cedendo ≠ []) :
    plano_receber_pedido_travessia b id_pedestre = b := by
  simp only [plano_receber_pedido_travessia, if_pos h]

theorem claim_C2_witness :
    plano_receber_pedido_travessia ⟨["Pessoa_1"], []⟩ "Pessoa_2" =
      ⟨["Pessoa_1"], []⟩ :=
  claim_C2 ⟨["Pessoa_1"], []⟩ "Pessoa_2" (Or.inl (by decide))

/-- C3: the evaluation of a pending crossing request always grants — it adds
exactly one yielding belief tagged with the pedestrian id and evaluation
waypoint, sends exactly one response, the `concedida` one carrying the
vehicle name (so the `negada` branch is never taken), adds the monitoring
goal, and removes the pending-request belief for that pedestrian. -/
theorem claim_C3 (myName : String) (b : CarroBeliefs)
    (id_pedestre ponto : String) :
    plano_avaliar_pedido myName b (id_pedestre, ponto) =
      ({ pedindo := b.pedindo.erase id_pedestre,
         cedendo := b.cedendo ++ [(id_pedestre, ponto)] },
       [⟨id_pedestre, "resposta_carro_travessia", ("concedida", myName)⟩],
       [CarGoal.monitorar (id_pedestre, ponto)]) := rfl

/-- C5: a pedestrian holding the awaiting-response belief that receives no
response waits exactly the fixed 3.0-second timeout, then drops the belief,
clears the negotiated-car reference and re-adds the deciding goal; the
crossing-permission belief is exactly as present afterwards as before. -/
theorem claim_C5 (p : Pessoa)
    (h : PBelief.aguardando_resposta ∈ p.beliefs) :
    plano_aguardar_resposta p =
      ({ p with
          beliefs := p.beliefs.erase .aguardando_resposta
          carro_negociando := none }, some 3, [PGoal.decidir_movimento]) ∧
    (PBelief.pode_atravessar ∈ (plano_aguardar_resposta p).1.beliefs ↔
      PBelief.pode_atravessar ∈ p.beliefs) := by
  constructor
  · simp [plano_aguardar_resposta, h]
  · simp only [plano_aguardar_resposta, h, not_true, ite_false]
    exact List.mem_erase_of_ne (by decide)

theorem claim_C5_witness :
    plano_aguardar_resposta
        ⟨[.aguardando_resposta], some "Carro_1", "P1", (195, 449)⟩ =
      (⟨[], none, "P1", (195, 449)⟩, some 3, [PGoal.decidir_movimento]) := by
  have h := (claim_C5
    ⟨[.aguardando_resposta], some "Carro_1", "P1", (195, 449)⟩ (by decide)).1
  rw [h]
  rfl

/-- C10: a car response whose responder differs from the car the pedestrian
is negotiating with is ignored outright — the state (awaiting belief,
permission, negotiated-car reference) is returned unchanged, no wait is
performed and no goal is added. -/
theorem claim_C10 (p : Pessoa) (resposta id_carro_resp : String)
    (h : p.carro_negociando ≠ some id_carro_resp) :
    plano_processar_resposta_carro p (resposta, id_carro_resp) =
      (p, none, []) := by
  simp only [plano_processar_resposta_carro, if_pos h]

theorem claim_C10_witness :
    plano_processar_resposta_carro
        ⟨[.aguardando_resposta], some "Carro_1", "P1", (195, 449)⟩
        ("concedida", "Carro_2") =
      (⟨[.aguardando_resposta], some "Carro_1", "P1", (195, 449)⟩, none, []) :=
  claim_C10 ⟨[.aguardando_resposta], some "Carro_1", "P1", (195, 449)⟩
    "concedida" "Carro_2" (by decide)

/-- C7: the crossing-pair chain of the source (with its duplicate later
branches) computes exactly the minimal pair table P1-P4, P2-P3 on every
waypoint — the duplicate branches are shadowed by the earlier branch on the
same waypoint — and consequently a pedestrian holding permission at a
waiting point is sent toward the unique paired opposite waypoint. -/
theorem claim_C7 :
    (∀ ponto, caminho_travessia_src ponto = tabela_pares_spec ponto) ∧
    caminho_travessia_src "P1" = ["P4"] ∧
    caminho_travessia_src "P4" = ["P1"] ∧
    caminho_travessia_src "P2" = ["P3"] ∧
    caminho_travessia_src "P3" = ["P2"] ∧
    (∀ (choice : List String → String) (randWait : ℚ) (st : WState)
        (p : Pessoa),
      (∀ x, choice [x] = x) →
      PBelief.pode_atravessar ∈ p.beliefs →
      PBelief.aguardando_resposta ∉ p.beliefs →
      p.ponto_atual ∈ PONTOS_ESPERA_PEDESTRE →
      plano_decidir_movimento choice randWait st p =
        (p, none,
         [PGoal.executar_movimento ((tabela_pares_spec p.ponto_atual).headD "")])) := by
  refine ⟨?_, by decide, by decide, by decide, by decide, ?_⟩
  · intro ponto
    unfold caminho_travessia_src tabela_pares_spec
    split_ifs <;> rfl
  · intro choice randWait st p hch hperm hag hesp
    have hesp4 : p.ponto_atual = "P1" ∨ p.ponto_atual = "P4" ∨
        p.ponto_atual = "P2" ∨ p.ponto_atual = "P3" := by
      simpa [PONTOS_ESPERA_PEDESTRE] using hesp
    rcases hesp4 with hpt | hpt | hpt | hpt <;>
      rw [hpt] at hesp <;>
      simp [plano_decidir_movimento, hpt, hag, hperm, hesp,
        caminho_travessia_src, tabela_pares_spec, hch]

theorem claim_C7_witness :
    plano_decidir_movimento (fun l => l.headD "") 2 []
        ⟨[.pode_atravessar], none, "P1", (195, 449)⟩ =
      (⟨[.pode_atravessar], none, "P1", (195, 449)⟩, none,
       [PGoal.executar_movimento "P4"]) := by
  have h := claim_C7.2.2.2.2.2 (fun l => l.headD "") 2 []
    ⟨[.pode_atravessar], none, "P1", (195, 449)⟩
    (fun x => rfl) (by decide) (by decide) (by decide)
  rw [h]
  decide

/-- C1 counterexample: the first phase of the embedded signal cycle is held
for 5 seconds, not the 4 seconds the claim states, the hold-time table is
not `[4, 2, 4, 2]`, and the total period is 14 seconds, not 12. -/
theorem claim_C1_counterexample :
    temposGet 0 = 5 ∧ temposGet 0 ≠ 4 ∧ tempos ≠ [4, 2, 4, 2] ∧
      tempos.sum = 14 := by
  refine ⟨rfl, by decide, by decide, ?_⟩
  norm_num [tempos, List.sum_cons, List.sum_nil]

/-- C1 amended: the controller repeats forever exactly the four
(vertical, horizontal) phases (verde,vermelho), (amarelo,vermelho),
(vermelho,verde), (vermelho,amarelo) in this fixed order, holding them for
5 s, 2 s, 5 s and 2 s respectively — total period 14 seconds — and after
every transition writes both colors into the percepts and into the shared
world state. -/
theorem claim_C1_amended (c : Cruzamento) (st : WState) (i : Fin 4)
    (pv ph : String) (hv : c.percept_v = some pv) (hh : c.percept_h = some ph)
    (hs : c.shared = some st) :
    (trocar_sinal_step c i).1.percept_v = some (estadosGet i).1 ∧
    (trocar_sinal_step c i).1.percept_h = some (estadosGet i).2 ∧
    (∃ st', (trocar_sinal_step c i).1.shared = some st' ∧
      wget st' "estado_semaforo_v" = some (.str (estadosGet i).1) ∧
      wget st' "estado_semaforo_h" = some (.str (estadosGet i).2)) ∧
    (trocar_sinal_step c i).2.1 = temposGet i ∧
    ((trocar_sinal_step c i).2.2).val = (i.val + 1) % 4 ∧
    estados = [("verde", "vermelho"), ("amarelo", "vermelho"),
      ("vermelho", "verde"), ("vermelho", "amarelo")] ∧
    tempos = [5, 2, 5, 2] ∧ tempos.sum = 14 ∧
    (∀ n : Nat, faseDe (n + 4) = faseDe n) := by
  rcases hE : estadosGet i with ⟨ev, eh⟩
  refine ⟨?_, ?_, ?_, ?_, ?_, rfl, rfl,
    by norm_num [tempos, List.sum_cons, List.sum_nil], ?_⟩
  · simp [trocar_sinal_step, hv, hh, hE]
  · simp [trocar_sinal_step, hv, hh, hE]
  · refine ⟨wset (wset st "estado_semaforo_v" (.str ev))
      "estado_semaforo_h" (.str eh), ?_, ?_, ?_⟩
    · simp [trocar_sinal_step, hv, hh, hs, hE]
    · rw [wget_wset_ne _ _ _ _ (by decide), wget_wset_self]
    · rw [wget_wset_self]
  · simp [trocar_sinal_step, hv, hh, hE]
  · simp [trocar_sinal_step, hv, hh, hE]
  · intro n
    have h4 : (n + 4) % 4 = n % 4 := Nat.add_mod_right n 4
    have hfin : (⟨(n + 4) % 4, Nat.mod_lt _ (by omega)⟩ : Fin 4) =
        ⟨n % 4, Nat.mod_lt _ (by omega)⟩ := Fin.ext h4
    simp only [faseDe, hfin]

theorem claim_C1_witness :
    (trocar_sinal_step (controlador_setup (some mainEstadoInicial)) 0).2.1 =
      temposGet 0 :=
  (claim_C1_amended (controlador_setup (some mainEstadoInicial)) _ 0
    "verde" "vermelho" rfl rfl rfl).2.2.2.1

/-- C4: a step of the yield-monitoring handler keeps the yielding belief
and re-issues the monitoring goal after a 0.5 s wait exactly when the
monitored pedestrian position is published and inside the crosswalk zone
mapped to the evaluation waypoint (closed intervals on both coordinates);
when the pedestrian is outside that zone, its position is absent from the
shared state, or the waypoint has no mapped zone, the belief is removed and
the driving goal re-added instead. -/
theorem claim_C4 (st : WState) (b : CarroBeliefs) (id_pedestre ponto : String) :
    (wget st (id_pedestre ++ "_pos") = none →
      plano_monitorar_pedestre st b id_pedestre ponto =
        .ok ({ b with cedendo := b.cedendo.erase (id_pedestre, ponto) },
          none, [CarGoal.dirigir])) ∧
    (∀ x y, wget st (id_pedestre ++ "_pos") = some (.pair x y) →
      (MAPA_AVALIACAO_PASSADEIRA ponto = none →
        plano_monitorar_pedestre st b id_pedestre ponto =
          .ok ({ b with cedendo := b.cedendo.erase (id_pedestre, ponto) },
            none, [CarGoal.dirigir])) ∧
      (∀ z, MAPA_AVALIACAO_PASSADEIRA ponto = some z →
        (insideZona z x y = true →
          plano_monitorar_pedestre st b id_pedestre ponto =
            .ok (b, some (1/2), [CarGoal.monitorar (id_pedestre, ponto)])) ∧
        (insideZona z x y = false →
          plano_monitorar_pedestre st b id_pedestre ponto =
            .ok ({ b with cedendo := b.cedendo.erase (id_pedestre, ponto) },
              none, [CarGoal.dirigir])))) := by
  refine ⟨?_, ?_⟩
  · intro h
    simp [plano_monitorar_pedestre, h]
  · intro x y h
    refine ⟨?_, ?_⟩
    · intro hz
      simp [plano_monitorar_pedestre, h, hz, PyVal.truthy]
    · intro z hz
      refine ⟨?_, ?_⟩ <;> intro hin <;>
        simp [plano_monitorar_pedestre, h, hz, hin, PyVal.truthy]

theorem claim_C4_witness :
    plano_monitorar_pedestre [("Pessoa_1_pos", PyVal.pair 300 449)]
        ⟨[], [("Pessoa_1", "V_MID_L")]⟩ "Pessoa_1" "V_MID_L" =
      .ok (⟨[], [("Pessoa_1", "V_MID_L")]⟩, some (1/2),
        [CarGoal.monitorar ("Pessoa_1", "V_MID_L")]) := by
  have h := ((claim_C4 [("Pessoa_1_pos", PyVal.pair 300 449)]
    ⟨[], [("Pessoa_1", "V_MID_L")]⟩ "Pessoa_1" "V_MID_L").2 300 449
    (by decide)).2 ZONA_PASSADEIRA_3 rfl
  exact h.1 (by norm_num [insideZona, ZONA_PASSADEIRA_3])

/-- C8 counterexample: after the vehicle constructor publishes its initial
position into the shared state of `main.py`, and again after a movement-step
position publication, the `Carro_1_angle` key is still absent — the vehicle
agent never writes a heading-angle key, contradicting the claim that a
reader of the shared state can obtain each vehicle angle. -/
theorem claim_C8_counterexample :
    wget (agenteCarro_init "Carro_1" "V_START_L" 5 mainEstadoInicial).shared
        "Carro_1_angle" = none ∧
    wget (carro_publicar_posicao "Carro_1" (300, 700)
        (agenteCarro_init "Carro_1" "V_START_L" 5 mainEstadoInicial).shared)
        "Carro_1_angle" = none := by
  decide

/-- C8 amended: the vehicle agent publishes only its position, under the
`{agent_id}_pos` key — the constructor and every movement-step write store
a position pair there and leave every other key (in particular any
`{agent_id}_angle` key) exactly as it was, so no heading angle is ever made
available in the shared world state. -/
theorem claim_C8_amended (name ponto_inicial : String) (velocidade : ℚ)
    (pos : ℚ × ℚ) (st : WState) :
    wget (carro_publicar_posicao name pos st) (name ++ "_pos") =
      some (.pair pos.1 pos.2) ∧
    (∀ k, k ≠ name ++ "_pos" →
      wget (carro_publicar_posicao name pos st) k = wget st k) ∧
    (∀ k, k ≠ name ++ "_pos" →
      wget (agenteCarro_init name ponto_inicial velocidade st).shared k =
        wget st k) := by
  refine ⟨wget_wset_self st _ _, ?_, ?_⟩
  · intro k hk
    exact wget_wset_ne st _ k _ hk
  · intro k hk
    exact wget_wset_ne st _ k _ hk

theorem claim_C8_witness :
    wget (carro_publicar_posicao "Carro_1" (300, 600) mainEstadoInicial)
        "Carro_1_angle" = wget mainEstadoInicial "Carro_1_angle" :=
  (claim_C8_amended "Carro_1" "V_START_L" 5 (300, 600)
    mainEstadoInicial).2.1 "Carro_1_angle" (by decide)

theorem encontrar_carro_proximo_none (st : WState) (posicao : ℚ × ℚ)
    (h : ∀ e ∈ st, pyStartsWith e.1 "Carro" = true →
      pyEndsWith e.1 "_pos" = true →
      ∀ d2, calcular_distancia (.pair posicao.1 posicao.2) e.2 = some d2 →
        ¬ d2 < DISTANCIA_SEGURA_CARRO_PEDESTRE ^ 2) :
    encontrar_carro_proximo st posicao = none := by
  have key : ∀ l : WState, (∀ e ∈ l, pyStartsWith e.1 "Carro" = true →
      pyEndsWith e.1 "_pos" = true →
      ∀ d2, calcular_distancia (.pair posicao.1 posicao.2) e.2 = some d2 →
        ¬ d2 < DISTANCIA_SEGURA_CARRO_PEDESTRE ^ 2) →
      l.foldl (carroProximoStep posicao)
          (none, DISTANCIA_SEGURA_CARRO_PEDESTRE ^ 2) =
        (none, DISTANCIA_SEGURA_CARRO_PEDESTRE ^ 2) := by
    intro l
    induction l with
    | nil => intro _; rfl
    | cons e rest ih =>
      intro hl
      rw [List.foldl_cons]
      have hstep : carroProximoStep posicao
          (none, DISTANCIA_SEGURA_CARRO_PEDESTRE ^ 2) e =
          (none, DISTANCIA_SEGURA_CARRO_PEDESTRE ^ 2) := by
        by_cases hks : pyStartsWith e.1 "Carro" = true
        · by_cases hke : pyEndsWith e.1 "_pos" = true
          · cases hc : calcular_distancia (.pair posicao.1 posicao.2) e.2 with
            | none => simp [carroProximoStep, hks, hke, hc]
            | some d2 =>
              have hnd := hl e (List.mem_cons_self e rest) hks hke d2 hc
              simp [carroProximoStep, hks, hke, hc, hnd]
          · simp [carroProximoStep, hke]
        · simp [carroProximoStep, hks]
      rw [hstep]
      exact ih (fun e' he' => hl e' (List.mem_cons_of_mem e he'))
  simp [encontrar_carro_proximo, key st h]

/-- C6: a pedestrian at a waiting point without permission and not awaiting
a response, whose random draw picks the crossing partner of its waypoint,
self-grants when no car position in the shared state lies strictly within
the 150-pixel safety radius: the very same deciding step adds the
crossing-permission belief and the movement goal toward the drawn waypoint,
performs no wait, and adds no request goal (hence sends no message — the
request message is only ever sent by the plan handling a
`pedir_permissao` goal). -/
theorem claim_C6 (choice : List String → String) (randWait : ℚ)
    (st : WState) (p : Pessoa) (parceiro : String)
    (h1 : PBelief.aguardando_resposta ∉ p.beliefs)
    (h2 : PBelief.pode_atravessar ∉ p.beliefs)
    (hch : choice ((CAMINHOS_PEDESTRES p.ponto_atual).getD []) = parceiro)
    (hcross : e_travessia p.ponto_atual parceiro = true)
    (hsafe : ∀ e ∈ st, pyStartsWith e.1 "Carro" = true →
      pyEndsWith e.1 "_pos" = true →
      ∀ d2, calcular_distancia (.pair p.posicao.1 p.posicao.2) e.2 = some d2 →
        ¬ d2 < DISTANCIA_SEGURA_CARRO_PEDESTRE ^ 2) :
    plano_decidir_movimento choice randWait st p =
      ({ p with beliefs := p.beliefs ++ [.pode_atravessar] }, none,
       [PGoal.executar_movimento parceiro]) ∧
    (∀ idc, PGoal.pedir_permissao idc ∉
      (plano_decidir_movimento choice randWait st p).2.2) := by
  have hnone := encontrar_carro_proximo_none st p.posicao hsafe
  have hcross4 : (p.ponto_atual = "P1" ∧ parceiro = "P4") ∨
      (p.ponto_atual = "P4" ∧ parceiro = "P1") ∨
      (p.ponto_atual = "P2" ∧ parceiro = "P3") ∨
      (p.ponto_atual = "P3" ∧ parceiro = "P2") := by
    simpa [e_travessia, or_assoc] using hcross
  have hmain : plano_decidir_movimento choice randWait st p =
      ({ p with beliefs := p.beliefs ++ [.pode_atravessar] }, none,
       [PGoal.executar_movimento parceiro]) := by
    rcases hcross4 with ⟨ha, hb⟩ | ⟨ha, hb⟩ | ⟨ha, hb⟩ | ⟨ha, hb⟩ <;>
      rw [ha] at hch ⊢ <;> subst hb <;>
      simp only [CAMINHOS_PEDESTRES, Option.getD_some] at hch <;>
      simp [plano_decidir_movimento, h1, h2, hch, hnone,
        CAMINHOS_PEDESTRES, PONTOS_DE_PASSAGEM_PEDESTRES,
        PONTOS_ESPERA_PEDESTRE, e_travessia, ha]
  refine ⟨hmain, ?_⟩
  rw [hmain]
  intro idc
  simp

theorem claim_C6_witness :
    plano_decidir_movimento (fun l => l.headD "") 2 []
        ⟨[], none, "P1", (195, 449)⟩ =
      (⟨[.pode_atravessar], none, "P1", (195, 449)⟩, none,
       [PGoal.executar_movimento "P4"]) := by
  have h := (claim_C6 (fun l => l.headD "") 2 []
    ⟨[], none, "P1", (195, 449)⟩ "P4" (by decide) (by decide) (by decide)
    (by decide) (by intro e he; cases he)).1
  rw [h]
  rfl

/-- C9 counterexample: on a shared state holding one malformed car position
entry, the queue-ahead search raises a `TypeError` (the source subscripts
the raw value before any distance guard), instead of completing as it does
when the entry is absent — so a malformed entry is not treated as absence
by the queue-ahead search. -/
theorem claim_C9_counterexample :
    encontrar_carro_a_frente [("Carro_2_pos", PyVal.junk)] "Carro_1"
        (300, 600) "V_MID_L" = .error "TypeError" ∧
    encontrar_carro_a_frente [] "Carro_1" (300, 600) "V_MID_L" = .ok none := by
  constructor <;> rfl

/-- C9 amended: the distance helper returns infinity (`none`) whenever
either argument is not a well-formed position pair, and consequently the
immediate-obstacle search and the nearest-car search ignore malformed
position entries entirely — their result on any state equals their result
on the state with all malformed car-position entries removed, so such an
entry is never selected as an immediate obstacle or negotiation target.
The queue-ahead search is excluded: it subscripts raw values and can raise
on malformed entries instead (see the counterexample). -/
theorem claim_C9_amended :
    (∀ v w, (∀ x y, v ≠ PyVal.pair x y) →
      calcular_distancia v w = none ∧ calcular_distancia w v = none) ∧
    (∀ st posicao, encontrar_carro_proximo st posicao =
      encontrar_carro_proximo (st.filter entradaBemFormada) posicao) ∧
    (∀ st myName posicao alvo,
      encontrar_obstaculo_imediato st myName posicao alvo =
        encontrar_obstaculo_imediato (st.filter entradaBemFormada) myName
          posicao alvo) := by
  refine ⟨?_, ?_, ?_⟩
  · intro v w h
    cases v with
    | pair x y => exact absurd rfl (h x y)
    | str s => exact ⟨by cases w <;> rfl, by cases w <;> rfl⟩
    | boolean b => exact ⟨by cases w <;> rfl, by cases w <;> rfl⟩
    | junk => exact ⟨by cases w <;> rfl, by cases w <;> rfl⟩
  · intro st posicao
    have hstep : ∀ e, entradaBemFormada e = false →
        ∀ acc, carroProximoStep posicao acc e = acc := by
      intro e he acc
      have h2 : isPairVal e.2 = false ∧
          (pyStartsWith e.1 "Carro" && pyEndsWith e.1 "_pos") = true := by
        simpa [entradaBemFormada] using he
      rcases h2 with ⟨hp, hk⟩
      cases hv : e.2 with
      | pair x y => rw [hv] at hp; simp [isPairVal] at hp
      | str s => simp [carroProximoStep, hk, hv, calcular_distancia]
      | boolean b => simp [carroProximoStep, hk, hv, calcular_distancia]
      | junk => simp [carroProximoStep, hk, hv, calcular_distancia]
    simp only [encontrar_carro_proximo]
    rw [foldl_ignored (carroProximoStep posicao) entradaBemFormada hstep st]
  · intro st myName posicao alvo
    have hstep : ∀ (iv ihz : Bool) (f l dx dy : ℚ) e,
        entradaBemFormada e = false →
        ∀ acc, obstaculoStep myName posicao iv ihz f l dx dy acc e = acc := by
      intro iv ihz f l dx dy e he acc
      have h2 : isPairVal e.2 = false ∧
          (pyStartsWith e.1 "Carro" && pyEndsWith e.1 "_pos") = true := by
        simpa [entradaBemFormada] using he
      rcases h2 with ⟨hp, hk⟩
      by_cases hm : e.1 = myName ++ "_pos"
      · simp [obstaculoStep, hm]
      · cases hv : e.2 with
        | pair x y => rw [hv] at hp; simp [isPairVal] at hp
        | str s => simp [obstaculoStep, hk, hm, hv, calcular_distancia]
        | boolean b => simp [obstaculoStep, hk, hm, hv, calcular_distancia]
        | junk => simp [obstaculoStep, hk, hm, hv, calcular_distancia]
    have hfold : ∀ (iv ihz : Bool) (f l dx dy : ℚ),
        st.foldl (obstaculoStep myName posicao iv ihz f l dx dy)
            (none, none) =
          (st.filter entradaBemFormada).foldl
            (obstaculoStep myName posicao iv ihz f l dx dy) (none, none) :=
      fun iv ihz f l dx dy =>
        foldl_ignored _ _ (hstep iv ihz f l dx dy) st _
    cases alvo with
    | none => rfl
    | some a =>
      cases hp : PONTOS_DE_PASSAGEM_CARROS a with
      | none => simp [encontrar_obstaculo_imediato, hp]
      | some pos_alvo =>
        simp only [encontrar_obstaculo_imediato, hp]
        rw [hfold]

theorem claim_C9_witness :
    calcular_distancia PyVal.junk (PyVal.pair 0 0) = none ∧
    calcular_distancia (PyVal.pair 0 0) PyVal.junk = none :=
  claim_C9_amended.1 PyVal.junk (PyVal.pair 0 0)
    (fun _ _ h => PyVal.noConfusion h)
